import Mathlib

deriving instance DecidableEq for Except

/-!
Verification of the `lexical-float-format` template corpus.

The repository consists of four parametrized C/C++ source templates
(`src/lang/literal.c`, `literal.cpp`, `string.c`, `string.cpp`).  A template
is a program skeleton in which `{name}` marks a placeholder and a doubled
brace (`{{` / `}}`) denotes a literal brace.  A renderer (described by the
specification; its code is not part of the repository) substitutes fixture
values for the placeholders, and the rendered program is compiled and run
by an external toolchain.

This file embeds
  * the exact text of the four templates,
  * the renderer (modelled from the spec, since its code is absent),
  * the runtime semantics of the generated programs: the C standard library
    conversions `strtol` / `strtoul` / `strtod` (C99 semantics, LP64 model
    where `long` is 64 bits), the `ParseError` / `exit(1)` path, and the
    NaN-aware assertion of `main`.
Doubles are modelled as exact rationals plus NaN and signed infinity; the
IEEE-754 rounding of decimal literals is abstracted away (no claim below
depends on a rounded value), while the NaN / infinity comparison semantics
of `==` and `!=` is modelled faithfully.
-/

/-- Exact text of src/lang/literal.c (braces written as hex escapes). -/
def literal_c : String :=
  "#include <assert.h>\n" ++
  "#include <math.h>\n" ++
  "#include <stdint.h>\n" ++
  "\n" ++
  "typedef int64_t i64;\n" ++
  "typedef uint64_t u64;\n" ++
  "typedef double f64;\n" ++
  "\n" ++
  "int main() \x7b\x7b\n" ++
  "    \x7btype\x7d actual = \x7bvalue\x7d;\n" ++
  "    \x7btype\x7d expected = \x7bexpected\x7d;\n" ++
  "    if (expected != expected) \x7b\x7b\n" ++
  "        assert(actual != actual);\n" ++
  "    \x7d\x7d else \x7b\x7b\n" ++
  "        assert(actual == expected);\n" ++
  "    \x7d\x7d\n" ++
  "    return 0;\n" ++
  "\x7d\x7d\n" ++
  "\n" ++
  ""

/-- Exact text of src/lang/literal.cpp (braces written as hex escapes). -/
def literal_cpp : String :=
  "#include <cassert>\n" ++
  "#include <cmath>\n" ++
  "#include <stdint.h> // use for pre-C++11 compatability\n" ++
  "\n" ++
  "typedef int64_t i64;\n" ++
  "typedef uint64_t u64;\n" ++
  "typedef double f64;\n" ++
  "\n" ++
  "int main() \x7b\x7b\n" ++
  "    \x7btype\x7d actual = \x7bvalue\x7d;\n" ++
  "    \x7btype\x7d expected = \x7bexpected\x7d;\n" ++
  "    if (expected != expected) \x7b\x7b\n" ++
  "        assert(actual != actual);\n" ++
  "    \x7d\x7d else \x7b\x7b\n" ++
  "        assert(actual == expected);\n" ++
  "    \x7d\x7d\n" ++
  "    return 0;\n" ++
  "\x7d\x7d\n" ++
  "\n" ++
  ""

/-- Exact text of src/lang/string.c (braces written as hex escapes). -/
def string_c : String :=
  "#include <assert.h>\n" ++
  "#include <math.h>\n" ++
  "#include <stdlib.h>\n" ++
  "#include <stdint.h>\n" ++
  "#include <stdio.h>\n" ++
  "\n" ++
  "union number\n" ++
  "\x7b\x7b\n" ++
  "    int64_t i64;\n" ++
  "    uint64_t u64;\n" ++
  "    double f64;\n" ++
  "\x7d\x7d;\n" ++
  "\n" ++
  "int64_t i64(const char* value) \x7b\x7b\n" ++
  "    char* end;\n" ++
  "    long i = strtol(value, &end, \x7bbase\x7d);\n" ++
  "    if (*end != 0) \x7b\x7b\n" ++
  "        printf(\"ParseError:\\n\");\n" ++
  "        exit(1);\n" ++
  "    \x7d\x7d\n" ++
  "    return (int64_t)i;\n" ++
  "\x7d\x7d\n" ++
  "\n" ++
  "uint64_t u64(const char* value) \x7b\x7b\n" ++
  "    char* end;\n" ++
  "    unsigned long i = strtoul(value, &end, \x7bbase\x7d);\n" ++
  "    if (*end != 0) \x7b\x7b\n" ++
  "        printf(\"ParseError:\\n\");\n" ++
  "        exit(1);\n" ++
  "    \x7d\x7d\n" ++
  "    return (uint64_t)i;\n" ++
  "\x7d\x7d\n" ++
  "\n" ++
  "double f64(const char *value) \x7b\x7b\n" ++
  "    char* end;\n" ++
  "    double f = strtod(value, &end);\n" ++
  "    if (*end != 0) \x7b\x7b\n" ++
  "        printf(\"ParseError:\\n\");\n" ++
  "        exit(1);\n" ++
  "    \x7d\x7d\n" ++
  "    return f;\n" ++
  "\x7d\x7d\n" ++
  "\n" ++
  "int main() \x7b\x7b\n" ++
  "    union number actual;\n" ++
  "    union number expected;\n" ++
  "\n" ++
  "    actual.\x7btype\x7d = \x7btype\x7d(\"\x7bvalue\x7d\");\n" ++
  "    expected.\x7btype\x7d = \x7bexpected\x7d;\n" ++
  "    if (expected.\x7btype\x7d != expected.\x7btype\x7d) \x7b\x7b\n" ++
  "        assert(actual.\x7btype\x7d != actual.\x7btype\x7d);\n" ++
  "    \x7d\x7d else \x7b\x7b\n" ++
  "        assert(actual.\x7btype\x7d == expected.\x7btype\x7d);\n" ++
  "    \x7d\x7d\n" ++
  "    return 0;\n" ++
  "\x7d\x7d\n" ++
  "\n" ++
  ""

/-- Exact text of src/lang/string.cpp (braces written as hex escapes). -/
def string_cpp : String :=
  "#include <cassert>\n" ++
  "#include <cmath>\n" ++
  "#include <cstdlib>\n" ++
  "#include <stdint.h> // use for pre-C++11 compatability\n" ++
  "#include <stdio.h>\n" ++
  "\n" ++
  "union number\n" ++
  "\x7b\x7b\n" ++
  "    int64_t i64;\n" ++
  "    uint64_t u64;\n" ++
  "    double f64;\n" ++
  "\x7d\x7d;\n" ++
  "\n" ++
  "int64_t i64(const char* value) \x7b\x7b\n" ++
  "    char* end;\n" ++
  "    long i = std::strtol(value, &end, \x7bbase\x7d);\n" ++
  "    if (*end != 0) \x7b\x7b\n" ++
  "        printf(\"ParseError:\\n\");\n" ++
  "        exit(1);\n" ++
  "    \x7d\x7d\n" ++
  "    return (int64_t)i;\n" ++
  "\x7d\x7d\n" ++
  "\n" ++
  "uint64_t u64(const char* value) \x7b\x7b\n" ++
  "    char* end;\n" ++
  "    unsigned long i = std::strtoul(value, &end, \x7bbase\x7d);\n" ++
  "    if (*end != 0) \x7b\x7b\n" ++
  "        printf(\"ParseError:\\n\");\n" ++
  "        exit(1);\n" ++
  "    \x7d\x7d\n" ++
  "    return (uint64_t)i;\n" ++
  "\x7d\x7d\n" ++
  "\n" ++
  "double f64(const char *value) \x7b\x7b\n" ++
  "    char* end;\n" ++
  "    double f = std::strtod(value, &end);\n" ++
  "    if (*end != 0) \x7b\x7b\n" ++
  "        printf(\"ParseError:\\n\");\n" ++
  "        exit(1);\n" ++
  "    \x7d\x7d\n" ++
  "    return f;\n" ++
  "\x7d\x7d\n" ++
  "\n" ++
  "int main() \x7b\x7b\n" ++
  "    union number actual;\n" ++
  "    union number expected;\n" ++
  "\n" ++
  "    actual.\x7btype\x7d = \x7btype\x7d(\"\x7bvalue\x7d\");\n" ++
  "    expected.\x7btype\x7d = \x7bexpected\x7d;\n" ++
  "    if (expected.\x7btype\x7d != expected.\x7btype\x7d) \x7b\x7b\n" ++
  "        assert(actual.\x7btype\x7d != actual.\x7btype\x7d);\n" ++
  "    \x7d\x7d else \x7b\x7b\n" ++
  "        assert(actual.\x7btype\x7d == expected.\x7btype\x7d);\n" ++
  "    \x7d\x7d\n" ++
  "    return 0;\n" ++
  "\x7d\x7d\n" ++
  "\n" ++
  ""

/-- Modelled from the spec: tokens of a template, produced by the renderer
scan.  The renderer itself is not in the repository (only the templates
are); `Tok.lit` is verbatim text, `Tok.ph` a placeholder reference. -/
inductive Tok where
  | lit (s : String)
  | ph (name : String)
deriving DecidableEq, Repr

/-- Opening brace character (code 123). -/
def lbrace : Char := Char.ofNat 123

/-- Closing brace character (code 125). -/
def rbrace : Char := Char.ofNat 125

/-- Classified template character: an unescaped opening brace, an unescaped
closing brace, or a plain text character. -/
inductive CChar where
  | ob
  | cb
  | txt (c : Char)
deriving DecidableEq, Repr

/-- Classify a single character that is not part of a doubled-brace escape. -/
def classify (c : Char) : CChar :=
  if c = lbrace then CChar.ob else if c = rbrace then CChar.cb else CChar.txt c

/-- Modelled from the spec: first scanner pass.  A doubled brace (`{{` or
`}}`) is an escaped literal brace; any other character is classified. -/
def preScan : List Char -> List CChar
  | [] => []
  | [c] => [classify c]
  | c1 :: c2 :: r =>
    if c1 = lbrace ∧ c2 = lbrace then CChar.txt lbrace :: preScan r
    else if c1 = rbrace ∧ c2 = rbrace then CChar.txt rbrace :: preScan r
    else classify c1 :: preScan (c2 :: r)

/-- Modelled from the spec: second scanner pass.  `mode = none` means we are
in literal text; `mode = some acc` means we are inside a `{name}` placeholder
whose name characters read so far are `acc` (reversed). -/
def lexC (mode : Option (List Char)) : List CChar -> List Tok
  | [] =>
    match mode with
    | none => []
    | some acc => [Tok.ph (String.mk acc.reverse)]
  | CChar.ob :: r =>
    match mode with
    | none => lexC (some []) r
    | some acc => lexC (some (lbrace :: acc)) r
  | CChar.cb :: r =>
    match mode with
    | none => Tok.lit (String.mk [rbrace]) :: lexC none r
    | some acc => Tok.ph (String.mk acc.reverse) :: lexC none r
  | CChar.txt c :: r =>
    match mode with
    | none => Tok.lit (String.mk [c]) :: lexC none r
    | some acc => lexC (some (c :: acc)) r

/-- Token list of a template. -/
def templateToks (t : String) : List Tok := lexC none (preScan t.data)

/-- Name of a placeholder token, if the token is one. -/
def phName : Tok -> Option String
  | Tok.ph n => some n
  | Tok.lit _ => none

/-- Placeholder names a template references, in scan order (duplicates kept). -/
def placeholders (t : String) : List String :=
  (templateToks t).filterMap phName

/-- Modelled from the spec: error conditions of the renderer. -/
inductive RenderError where
  | MissingPlaceholder (name : String)
deriving DecidableEq, Repr

/-- A fixture: a mapping from placeholder names to the literal text to be
substituted (absent names are unsupplied). -/
def Fixture : Type := String -> Option String

/-- Modelled from the spec: substitute fixture values into a token list;
fails fast with `MissingPlaceholder` when a referenced placeholder has no
supplied value, producing no output. -/
def renderToks (fx : Fixture) : List Tok -> Except RenderError String
  | [] => Except.ok ""
  | Tok.lit s :: r => (renderToks fx r).map (fun out => s ++ out)
  | Tok.ph n :: r =>
    match fx n with
    | none => Except.error (RenderError.MissingPlaceholder n)
    | some v => (renderToks fx r).map (fun out => v ++ out)

/-- Modelled from the spec: the renderer, a single pure transformation from
a template and a fixture to rendered program text. -/
def render (t : String) (fx : Fixture) : Except RenderError String :=
  renderToks fx (templateToks t)

/-- Whitespace characters skipped by the C `strto*` conversions (C `isspace`
in the default locale). -/
def isSpaceC (c : Char) : Bool :=
  c = ' ' || c = '\t' || c = '\n' || c = '\x0b' || c = '\x0c' || c = '\r'

/-- Numeric value of a digit character in bases up to 36, if any. -/
def digitVal (c : Char) : Option Nat :=
  if '0' ≤ c ∧ c ≤ '9' then some (c.toNat - '0'.toNat)
  else if 'a' ≤ c ∧ c ≤ 'z' then some (c.toNat - 'a'.toNat + 10)
  else if 'A' ≤ c ∧ c ≤ 'Z' then some (c.toNat - 'A'.toNat + 10)
  else none

/-- Read the longest run of digits valid in `base`; returns the value of the
run, the number of digits read, and the remaining characters. -/
def takeDigits (base : Nat) : List Char -> Nat × Nat × List Char
  | [] => (0, 0, [])
  | c :: r =>
    match digitVal c with
    | some d =>
      if d < base then
        let (v, n, rest) := takeDigits base r
        (d * base ^ n + v, n + 1, rest)
      else (0, 0, c :: r)
    | none => (0, 0, c :: r)

/-- Read an optional sign; returns (minus seen, characters consumed, rest). -/
def signScan : List Char -> Bool × Nat × List Char
  | [] => (false, 0, [])
  | c :: r =>
    if c = '-' then (true, 1, r)
    else if c = '+' then (false, 1, r)
    else (false, 0, c :: r)

/-- Whether the list starts with a digit valid in base 16. -/
def hexDigitStart : List Char -> Bool
  | [] => false
  | c :: _ =>
    match digitVal c with
    | some d => d < 16
    | none => false

/-- C99 base handling for `strtol`/`strtoul`: a `0x`/`0X` prefix is consumed
when base is 16 or 0 and a hex digit follows; base 0 is inferred from the
leading character (octal for `0`, else decimal).  Returns (effective base,
prefix length consumed, rest). -/
def baseAdj (base : Nat) (l : List Char) : Nat × Nat × List Char :=
  match l with
  | c0 :: c1 :: r =>
    if c0 = '0' ∧ (c1 = 'x' ∨ c1 = 'X') ∧ (base = 16 ∨ base = 0) ∧ hexDigitStart r
    then (16, 2, r)
    else if base = 0 then (if c0 = '0' then (8, 0, l) else (10, 0, l))
    else (base, 0, l)
  | c0 :: r =>
    if base = 0 then (if c0 = '0' then (8, 0, c0 :: r) else (10, 0, c0 :: r))
    else (base, 0, c0 :: r)
  | [] => (if base = 0 then 10 else base, 0, [])

/-- Common core of C99 `strtol`/`strtoul`: skip whitespace, read an optional
sign, adjust the base, read digits.  Returns (minus sign seen, mathematical
magnitude before range clamping, characters consumed).  When no conversion
can be performed (no digits, or an invalid base) the result is `(false, 0, 0)`
and `*endptr` is the original start, i.e. zero characters are consumed. -/
def strtolCore (s : List Char) (base : Nat) : Bool × Nat × Nat :=
  let ws := (s.takeWhile isSpaceC).length
  let r1 := s.dropWhile isSpaceC
  let (neg, sgnLen, r2) := signScan r1
  let (effBase, preLen, r3) := baseAdj base r2
  if 2 ≤ effBase ∧ effBase ≤ 36 then
    let (v, n, _) := takeDigits effBase r3
    if n = 0 then (false, 0, 0)
    else (neg, v, ws + sgnLen + preLen + n)
  else (false, 0, 0)

/-- `LONG_MAX` on an LP64 platform (`long` is 64 bits, as the templates'
cast `(int64_t)i` presumes). -/
def LONG_MAX : Int := 2 ^ 63 - 1

/-- `LONG_MIN` on an LP64 platform. -/
def LONG_MIN : Int := -(2 ^ 63)

/-- `ULONG_MAX` on an LP64 platform. -/
def ULONG_MAX : Nat := 2 ^ 64 - 1

/-- C99 `strtol`: the converted value, saturated to `[LONG_MIN, LONG_MAX]`
on overflow (the ERANGE case still consumes all digits), plus the number of
characters consumed. -/
def strtol (s : String) (base : Nat) : Int × Nat :=
  let (neg, mag, used) := strtolCore s.data base
  let v : Int := if neg then -(mag : Int) else (mag : Int)
  (max LONG_MIN (min LONG_MAX v), used)

/-- C99 `strtoul`: magnitudes above `ULONG_MAX` saturate to `ULONG_MAX`; a
leading minus sign negates the value in unsigned (mod 2^64) arithmetic. -/
def strtoul (s : String) (base : Nat) : Nat × Nat :=
  let (neg, mag, used) := strtolCore s.data base
  let v : Nat :=
    if ULONG_MAX < mag then ULONG_MAX
    else if neg then (2 ^ 64 - mag) % 2 ^ 64
    else mag
  (v, used)

/-- Model of a C `double` for the comparison semantics the templates use:
NaN, a signed infinity, or an exact finite value.  The IEEE-754 rounding of
finite values is abstracted to exact rationals; `==`/`!=` behavior on NaN
and infinities is modelled faithfully. -/
inductive F where
  | NaN
  | inf (neg : Bool)
  | num (q : ℚ)
deriving DecidableEq

/-- Case-insensitive prefix test (pattern given in lowercase). -/
def startsWithCI : List Char -> List Char -> Bool
  | [], _ => true
  | _ :: _, [] => false
  | pc :: pr, c :: r => pc = c.toLower && startsWithCI pr r

/-- Characters allowed in the optional `nan(n-char-seq)` suffix. -/
def isIdentChar (c : Char) : Bool := c.isAlphanum || c = '_'

/-- Consume an optional exponent part (`e`/`E` or `p`/`P` marker already
checked by the caller): sign and a nonempty digit run; consumed only when at
least one exponent digit is present.  Returns (exponent, characters
consumed including the marker). -/
def expScan (r : List Char) : Int × Nat :=
  let (eneg, esLen, r1) := signScan r
  let (ev, en, _) := takeDigits 10 r1
  if en = 0 then (0, 0)
  else (if eneg then -(ev : Int) else (ev : Int), 1 + esLen + en)

/-- Scale an exact rational by `base ^ exp` for an integer exponent. -/
def scaleBy (base : Nat) (q : ℚ) (exp : Int) : ℚ :=
  if 0 ≤ exp then q * (base : ℚ) ^ exp.toNat
  else q / (base : ℚ) ^ (-exp).toNat

/-- C99 `strtod` on the classified character list: whitespace, optional
sign, then `inf`/`infinity`, `nan`/`nan(seq)`, a hexadecimal significand
with optional binary exponent, or a decimal significand with optional
decimal exponent; the longest valid prefix is consumed, and zero characters
are consumed when no conversion can be performed. -/
def strtodCore (s : List Char) : F × Nat :=
  let ws := (s.takeWhile isSpaceC).length
  let r1 := s.dropWhile isSpaceC
  let (neg, sgnLen, r2) := signScan r1
  let pre := ws + sgnLen
  if startsWithCI "infinity".data r2 then (F.inf neg, pre + 8)
  else if startsWithCI "inf".data r2 then (F.inf neg, pre + 3)
  else if startsWithCI "nan".data r2 then
    match r2.drop 3 with
    | '(' :: r4 =>
      let seq := (r4.takeWhile isIdentChar).length
      (match r4.dropWhile isIdentChar with
       | ')' :: _ => (F.NaN, pre + 3 + 1 + seq + 1)
       | _ => (F.NaN, pre + 3))
    | _ => (F.NaN, pre + 3)
  else
    match r2 with
    | c0 :: c1 :: r3 =>
      if c0 = '0' ∧ (c1 = 'x' ∨ c1 = 'X') then
        -- hexadecimal form
        let (iv, ni, r4) := takeDigits 16 r3
        let (fv, nf, dotLen, r5) :=
          match r4 with
          | '.' :: r5a =>
            let (fv, nf, r5b) := takeDigits 16 r5a
            (fv, nf, 1, r5b)
          | _ => (0, 0, 0, r4)
        if ni + nf = 0 then (F.num 0, pre + 1)  -- subject sequence is just "0"
        else
          let (e2, eLen) :=
            match r5 with
            | ec :: r6 => if ec = 'p' ∨ ec = 'P' then expScan r6 else (0, 0)
            | [] => (0, 0)
          let mant : ℚ := ((iv * 16 ^ nf + fv : Nat) : ℚ) / ((16 ^ nf : Nat) : ℚ)
          let q := scaleBy 2 mant e2
          (F.num (if neg then -q else q), pre + 2 + ni + dotLen + nf + eLen)
      else
        -- decimal form
        let (iv, ni, r4) := takeDigits 10 r2
        let (fv, nf, dotLen, r5) :=
          match r4 with
          | '.' :: r5a =>
            let (fv, nf, r5b) := takeDigits 10 r5a
            (fv, nf, 1, r5b)
          | _ => (0, 0, 0, r4)
        if ni + nf = 0 then (F.num 0, 0)  -- no conversion performed
        else
          let (e10, eLen) :=
            match r5 with
            | ec :: r6 => if ec = 'e' ∨ ec = 'E' then expScan r6 else (0, 0)
            | [] => (0, 0)
          let mant : ℚ := ((iv * 10 ^ nf + fv : Nat) : ℚ) / ((10 ^ nf : Nat) : ℚ)
          let q := scaleBy 10 mant e10
          (F.num (if neg then -q else q), pre + ni + dotLen + nf + eLen)
    | [c0] =>
      let (iv, ni, _) := takeDigits 10 [c0]
      if ni = 0 then (F.num 0, 0) else (F.num (if neg then -(iv : ℚ) else (iv : ℚ)), pre + 1)
    | [] => (F.num 0, 0)

/-- C99 `strtod`: converted value and number of characters consumed. -/
def strtod (s : String) : F × Nat := (strtodCore s.data)

/-- Diagnostic text printed (followed by a newline) by the generated parse
functions before `exit(1)`. -/
def ParseErrorMsg : String := "ParseError:"

/-- Embeds `int64_t i64(const char* value)` of src/lang/string.c and
string.cpp (lines 14-22): `strtol`, then `*end != 0` means trailing
unconsumed characters, so print `ParseError:` and `exit(1)`; otherwise
return `(int64_t)i` (the identity on LP64, where `long` is `int64_t`).
`*end != 0` is `used ≠ length` for a NUL-free argument — and the argument
is a rendered C string literal, which cannot contain a raw NUL. -/
def i64 (value : String) (base : Nat) : Except String Int :=
  let (i, used) := strtol value base
  if used ≠ value.length then Except.error ParseErrorMsg
  else Except.ok i

/-- Embeds `uint64_t u64(const char* value)` of src/lang/string.c and
string.cpp (lines 24-32). -/
def u64 (value : String) (base : Nat) : Except String Nat :=
  let (i, used) := strtoul value base
  if used ≠ value.length then Except.error ParseErrorMsg
  else Except.ok i

/-- Embeds `double f64(const char *value)` of src/lang/string.c and
string.cpp (lines 34-42): `strtod` takes no base argument. -/
def f64 (value : String) : Except String F :=
  let (f, used) := strtod value
  if used ≠ value.length then Except.error ParseErrorMsg
  else Except.ok f

/-- The three values the `{type}` placeholder takes (members of the
generated `union number`). -/
inductive Ty where
  | i64
  | u64
  | f64
deriving DecidableEq

/-- A runtime value of one of the three union members. -/
inductive CVal where
  | vi (n : Int)
  | vu (n : Nat)
  | vf (f : F)
deriving DecidableEq

/-- C `==` on doubles: false whenever either side is NaN; infinities are
equal when their signs agree; finite values compare exactly. -/
def F.ceq : F -> F -> Bool
  | F.inf a, F.inf b => a == b
  | F.num a, F.num b => decide (a = b)
  | _, _ => false

/-- C `==` between two values of the same union member type. -/
def ceq : CVal -> CVal -> Bool
  | CVal.vi a, CVal.vi b => a == b
  | CVal.vu a, CVal.vu b => a == b
  | CVal.vf a, CVal.vf b => F.ceq a b
  | _, _ => false

/-- C `!=`: the negation of `==` (true on NaN operands). -/
def cne (a b : CVal) : Bool := !(ceq a b)

/-- Result of running one generated test program. -/
inductive Outcome where
  | pass
  | assertFail
  | parseError
deriving DecidableEq

/-- Process exit code of an outcome.  `pass` reaches `return 0`;
`parseError` is the explicit `exit(1)`; a failed `assert` aborts via
SIGABRT, reported by the shell as 128 + 6 = 134 — the claims only rely on
it being nonzero. -/
def exitCode : Outcome -> Nat
  | Outcome.pass => 0
  | Outcome.parseError => 1
  | Outcome.assertFail => 134

/-- Standard-output lines of an outcome: only the parse-error path prints. -/
def stdoutOf : Outcome -> List String
  | Outcome.parseError => [ParseErrorMsg]
  | _ => []

/-- Embeds the shared `main` body of all four templates (literal.c/cpp
lines 12-17, string.c/cpp lines 50-55): `if (expected != expected)
assert(actual != actual); else assert(actual == expected); return 0`. -/
def mainCheck (actual expected : CVal) : Outcome :=
  if cne expected expected then
    (if cne actual actual then Outcome.pass else Outcome.assertFail)
  else
    (if ceq actual expected then Outcome.pass else Outcome.assertFail)

/-- The boolean condition the executed `assert` tests (NaN-aware guard). -/
def asserted (actual expected : CVal) : Bool :=
  if cne expected expected then cne actual actual else ceq actual expected

/-- Embeds `main` of the literal templates (literal.c/cpp lines 9-18):
`actual` and `expected` are compile-time literals, then the NaN-aware
assertion runs. -/
def literalMain (actual expected : CVal) : Outcome :=
  mainCheck actual expected

/-- Dispatch `actual.{type} = {type}("{value}")` of the string templates:
the `{type}` placeholder selects which generated parse function is called;
only `i64` and `u64` receive the `{base}` argument. -/
def parseAs (ty : Ty) (value : String) (base : Nat) : Except String CVal :=
  match ty with
  | Ty.i64 => (i64 value base).map CVal.vi
  | Ty.u64 => (u64 value base).map CVal.vu
  | Ty.f64 => (f64 value).map CVal.vf

/-- Embeds `main` of the string templates (string.c/cpp lines 44-56): parse
`"{value}"` into `actual.{type}` (the parse-error path never returns), set
`expected.{type}` to the `{expected}` value, then run the NaN-aware
assertion. -/
def stringMain (ty : Ty) (value : String) (expected : CVal) (base : Nat) : Outcome :=
  match parseAs ty value base with
  | Except.error _ => Outcome.parseError
  | Except.ok actual => mainCheck actual expected

/-- A fixture supplying all four placeholder values (used as a concrete
rendering input). -/
def fxFull : Fixture := fun k =>
  if k = "type" then some "i64"
  else if k = "value" then some "42"
  else if k = "expected" then some "42"
  else if k = "base" then some "10"
  else none

/-- A fixture that omits the `base` placeholder the string templates
reference. -/
def fxNoBase : Fixture := fun k =>
  if k = "type" then some "i64"
  else if k = "value" then some "42"
  else if k = "expected" then some "42"
  else none

/-- A decimal digit is not `strto*` whitespace. -/
theorem isSpaceC_eq_false_of_isDigit {c : Char} (h : c.isDigit = true) :
    isSpaceC c = false := by
  simp only [isSpaceC, Bool.or_eq_false_iff, decide_eq_false_iff_not]
  refine ⟨⟨⟨⟨⟨?_, ?_⟩, ?_⟩, ?_⟩, ?_⟩, ?_⟩ <;> rintro rfl <;> simp [Char.isDigit] at h

/-- A decimal digit has a digit value below 10. -/
theorem digitVal_of_isDigit {c : Char} (h : c.isDigit = true) :
    ∃ d, digitVal c = some d ∧ d < 10 := by
  by_cases h1 : '0' ≤ c ∧ c ≤ '9'
  · refine ⟨c.toNat - '0'.toNat, by simp [digitVal, h1], ?_⟩
    have ha : 48 ≤ c.toNat := h1.1
    have hb : c.toNat ≤ 57 := h1.2
    have h0 : '0'.toNat = 48 := rfl
    omega
  · exfalso
    simp only [Char.isDigit, Bool.and_eq_true, decide_eq_true_eq] at h
    exact h1 ⟨h.1, h.2⟩

/-- A decimal digit is not a sign character. -/
theorem not_sign_of_isDigit {c : Char} (h : c.isDigit = true) :
    c ≠ '-' ∧ c ≠ '+' := by
  constructor <;> rintro rfl <;> simp [Char.isDigit] at h

/-- Base-10 digit scanning consumes an all-digit list entirely. -/
theorem takeDigits_all {l : List Char} (h : ∀ c ∈ l, c.isDigit = true) :
    ∃ v, takeDigits 10 l = (v, l.length, []) := by
  induction l with
  | nil => exact ⟨0, rfl⟩
  | cons c r ih =>
    obtain ⟨d, hd, hd10⟩ := digitVal_of_isDigit (h c (by simp))
    obtain ⟨v, hv⟩ := ih (fun x hx => h x (by simp [hx]))
    exact ⟨d * 10 ^ r.length + v, by simp [takeDigits, hd, hd10, hv]⟩

/-- For a base other than 0 and 16, `strto*` base adjustment is trivial. -/
theorem baseAdj_plain {base : Nat} (h16 : base ≠ 16) (h0 : base ≠ 0) (l : List Char) :
    baseAdj base l = (base, 0, l) := by
  rcases l with _ | ⟨c0, _ | ⟨c1, r⟩⟩ <;> simp [baseAdj, h16, h0]

/-- The `strtol`/`strtoul` core consumes a nonempty all-digit string
entirely at base 10, whatever its magnitude. -/
theorem strtolCore_digits {l : List Char} (hne : l ≠ []) (h : ∀ c ∈ l, c.isDigit = true) :
    ∃ m, strtolCore l 10 = (false, m, l.length) := by
  rcases l with _ | ⟨c, r⟩
  · exact absurd rfl hne
  have hc := h c (by simp)
  have hsp := isSpaceC_eq_false_of_isDigit hc
  have hsg := not_sign_of_isDigit hc
  obtain ⟨v, hv⟩ := takeDigits_all h
  refine ⟨v, ?_⟩
  rw [strtolCore]
  rw [List.takeWhile_cons, hsp]
  rw [List.dropWhile_cons]
  simp only [hsp, Bool.false_eq_true, if_false, ite_false]
  rw [show signScan (c :: r) = (false, 0, c :: r) by simp [signScan, hsg.1, hsg.2]]
  rw [baseAdj_plain (by omega) (by omega)]
  simp [hv]

/-- On the empty string the `strtol`/`strtoul` core performs no conversion,
whatever the base. -/
theorem strtolCore_nil (b : Nat) : strtolCore [] b = (false, 0, 0) := by
  rw [strtolCore]
  simp only [List.takeWhile_nil, List.dropWhile_nil, signScan, baseAdj]
  split <;> simp [takeDigits]

/-- The shared `main` body passes exactly when the (NaN-aware) asserted
condition holds. -/
theorem mainCheck_eq_pass (a e : CVal) :
    mainCheck a e = Outcome.pass ↔ asserted a e = true := by
  rw [mainCheck, asserted]
  split <;> split <;> simp_all

/-- Against an expected NaN, the shared `main` body passes exactly when the
actual double is NaN. -/
theorem mainCheck_nanExp (a : F) :
    mainCheck (CVal.vf a) (CVal.vf F.NaN) = Outcome.pass ↔ a = F.NaN := by
  rw [mainCheck_eq_pass]
  cases a <;> simp [asserted, cne, ceq, F.ceq]

/-- Substitution over a token list fails with `MissingPlaceholder` whenever
some referenced placeholder has no supplied value. -/
theorem renderToks_missing (fx : Fixture) (toks : List Tok)
    (h : ∃ k ∈ toks.filterMap phName, fx k = none) :
    ∃ n, renderToks fx toks = Except.error (RenderError.MissingPlaceholder n) := by
  induction toks with
  | nil => simp at h
  | cons tk r ih =>
    cases tk with
    | lit s =>
      obtain ⟨n, hn⟩ := ih (by simpa [phName] using h)
      exact ⟨n, by simp [renderToks, hn, Except.map]⟩
    | ph m =>
      cases hfx : fx m with
      | none => exact ⟨m, by simp [renderToks, hfx]⟩
      | some v =>
        obtain ⟨k, hk, hkn⟩ := h
        simp only [List.filterMap_cons, phName, List.mem_cons] at hk
        rcases hk with rfl | hk
        · exact absurd hfx (by simp [hkn])
        · obtain ⟨n, hn⟩ := ih ⟨k, hk, hkn⟩
          exact ⟨n, by simp [renderToks, hfx, hn, Except.map]⟩

/-- Claim C1: for every fixture whose expected value is NaN, the program
produced by any of the four templates runs the `actual != actual` assertion
(reached via the `expected != expected` guard), so the generated test
passes if and only if the actual value is NaN.  For the literal templates
the actual value is the `{value}` literal; for the string templates it is
the value `f64` parses, so the test passes iff parsing succeeds and yields
NaN.  (The `.c` and `.cpp` variants have identical `main` bodies, embedded
once as `literalMain` / `stringMain`.) -/
theorem nan_fixture_asserts_self_inequality :
    (∀ a : F, literalMain (CVal.vf a) (CVal.vf F.NaN) = Outcome.pass ↔ a = F.NaN)
    ∧ ∀ (v : String) (b : Nat),
        stringMain Ty.f64 v (CVal.vf F.NaN) b = Outcome.pass ↔ f64 v = Except.ok F.NaN := by
  constructor
  · intro a
    exact mainCheck_nanExp a
  · intro v b
    cases hf : f64 v with
    | error e => simp [stringMain, parseAs, hf, Except.map]
    | ok a =>
      simp only [stringMain, parseAs, hf, Except.map]
      rw [mainCheck_nanExp]
      simp

/-- Claim C2: for every fixture whose expected value is not NaN (i.e. the
`expected != expected` guard is false), the program produced by any of the
four templates executes the exact-equality assertion `actual == expected`:
it passes iff `ceq actual expected`, with no tolerance or rounding.  The
string-template version is stated for any successfully parsed actual
value. -/
theorem non_nan_fixture_asserts_equality :
    (∀ a e : CVal, cne e e = false → (literalMain a e = Outcome.pass ↔ ceq a e = true))
    ∧ ∀ (ty : Ty) (v : String) (e : CVal) (b : Nat) (a : CVal),
        cne e e = false → parseAs ty v b = Except.ok a →
        (stringMain ty v e b = Outcome.pass ↔ ceq a e = true) := by
  constructor
  · intro a e h
    rw [literalMain, mainCheck_eq_pass, asserted, h]
    simp
  · intro ty v e b a h hp
    rw [stringMain, hp]
    rw [mainCheck_eq_pass, asserted, h]
    simp

/-- Witness for claim C2 at concrete inputs (type `i64`, non-NaN expected
values). -/
theorem non_nan_fixture_asserts_equality_witness :
    (cne (CVal.vi 3) (CVal.vi 3) = false
      ∧ parseAs Ty.i64 "42" 10 = Except.ok (CVal.vi 42))
    ∧ (literalMain (CVal.vi 3) (CVal.vi 3) = Outcome.pass ↔ ceq (CVal.vi 3) (CVal.vi 3) = true)
    ∧ (stringMain Ty.i64 "42" (CVal.vi 3) 10 = Outcome.pass ↔ ceq (CVal.vi 42) (CVal.vi 3) = true) :=
  ⟨⟨by decide, by rfl⟩,
   non_nan_fixture_asserts_equality.1 (CVal.vi 3) (CVal.vi 3) (by decide),
   non_nan_fixture_asserts_equality.2 Ty.i64 "42" (CVal.vi 3) 10 (CVal.vi 42) (by decide) (by rfl)⟩

/-- Claim C3: in every generated string-parsing program each of the three
parse functions reports `ParseError:` and exits with status 1 exactly when
the standard-library conversion leaves an unconsumed trailing character
(`*end != 0`, i.e. the consumed length differs from the string length); in
particular type `i64` with value `"12abc"` exits with code 1 after printing
`ParseError:`. -/
theorem parse_error_iff_trailing :
    (∀ (v : String) (b : Nat),
        i64 v b = Except.error ParseErrorMsg ↔ (strtol v b).2 ≠ v.length)
    ∧ (∀ (v : String) (b : Nat),
        u64 v b = Except.error ParseErrorMsg ↔ (strtoul v b).2 ≠ v.length)
    ∧ (∀ v : String, f64 v = Except.error ParseErrorMsg ↔ (strtod v).2 ≠ v.length)
    ∧ stringMain Ty.i64 "12abc" (CVal.vi 12) 10 = Outcome.parseError
    ∧ exitCode (stringMain Ty.i64 "12abc" (CVal.vi 12) 10) = 1
    ∧ stdoutOf (stringMain Ty.i64 "12abc" (CVal.vi 12) 10) = [ParseErrorMsg] := by
  refine ⟨?_, ?_, ?_, by rfl, by rfl, by rfl⟩
  · intro v b
    rcases h : strtol v b with ⟨i, u⟩
    by_cases hu : u = v.length <;> simp [i64, h, hu]
  · intro v b
    rcases h : strtoul v b with ⟨i, u⟩
    by_cases hu : u = v.length <;> simp [u64, h, hu]
  · intro v
    rcases h : strtod v with ⟨f, u⟩
    by_cases hu : u = v.length <;> simp [f64, h, hu]

/-- Claim C4: rendering is deterministic — the renderer is a pure function
of the template and the fixture's values, so two renderings with the same
template and extensionally equal fixtures are byte-identical. -/
theorem rendering_deterministic (t : String) (f g : Fixture)
    (h : ∀ k, f k = g k) : render t f = render t g :=
  congrArg (render t) (funext h)

/-- Witness for claim C4 on the literal.c template with a concrete
fixture. -/
theorem rendering_deterministic_witness :
    (∀ k, fxFull k = fxFull k) ∧ render literal_c fxFull = render literal_c fxFull :=
  ⟨fun _ => rfl, rendering_deterministic literal_c fxFull fxFull (fun _ => rfl)⟩

/-- Claim C5: a generated program reaches `return 0` (exit code 0) exactly
on a pass: when the asserted comparison holds — for string templates, when
parsing also leaves no trailing character, stated as `parseAs` succeeding —
the exit code is 0, and every failing outcome (failed assert, or the
explicit `exit(1)` parse-error path) has a nonzero exit code. -/
theorem exit_code_semantics :
    (∀ o : Outcome, exitCode o = 0 ↔ o = Outcome.pass)
    ∧ (∀ a e : CVal, asserted a e = true → exitCode (literalMain a e) = 0)
    ∧ (∀ (ty : Ty) (v : String) (e : CVal) (b : Nat) (a : CVal),
        parseAs ty v b = Except.ok a → asserted a e = true →
        exitCode (stringMain ty v e b) = 0)
    ∧ (∀ (ty : Ty) (v : String) (e : CVal) (b : Nat),
        stringMain ty v e b ≠ Outcome.pass → exitCode (stringMain ty v e b) ≠ 0)
    ∧ (∀ a e : CVal,
        literalMain a e ≠ Outcome.pass → exitCode (literalMain a e) ≠ 0) := by
  have hzero : ∀ o : Outcome, exitCode o = 0 ↔ o = Outcome.pass := by
    intro o; cases o <;> simp [exitCode]
  refine ⟨hzero, ?_, ?_, ?_, ?_⟩
  · intro a e h
    rw [hzero, literalMain, mainCheck_eq_pass]
    exact h
  · intro ty v e b a hp h
    rw [hzero, stringMain, hp, mainCheck_eq_pass]
    exact h
  · intro ty v e b h
    rw [Ne, hzero]
    exact h
  · intro a e h
    rw [Ne, hzero]
    exact h

/-- Witness for claim C5 at concrete inputs: a passing literal fixture, a
passing string fixture, a parse-error input, and a failing assertion. -/
theorem exit_code_semantics_witness :
    (asserted (CVal.vi 42) (CVal.vi 42) = true
      ∧ parseAs Ty.i64 "42" 10 = Except.ok (CVal.vi 42)
      ∧ stringMain Ty.i64 "12abc" (CVal.vi 12) 10 ≠ Outcome.pass
      ∧ literalMain (CVal.vi 1) (CVal.vi 2) ≠ Outcome.pass)
    ∧ exitCode (literalMain (CVal.vi 42) (CVal.vi 42)) = 0
    ∧ exitCode (stringMain Ty.i64 "42" (CVal.vi 42) 10) = 0
    ∧ exitCode (stringMain Ty.i64 "12abc" (CVal.vi 12) 10) ≠ 0
    ∧ exitCode (literalMain (CVal.vi 1) (CVal.vi 2)) ≠ 0 :=
  ⟨⟨by decide, by rfl, by decide, by decide⟩,
   exit_code_semantics.2.1 (CVal.vi 42) (CVal.vi 42) (by decide),
   exit_code_semantics.2.2.1 Ty.i64 "42" (CVal.vi 42) 10 (CVal.vi 42) (by rfl) (by decide),
   exit_code_semantics.2.2.2.1 Ty.i64 "12abc" (CVal.vi 12) 10 (by decide),
   exit_code_semantics.2.2.2.2 (CVal.vi 1) (CVal.vi 2) (by decide)⟩

/-- Claim C6: for every template and fixture, if the fixture omits a value
for some placeholder the template references, the renderer fails fast with
a `MissingPlaceholder` condition (an `Except.error`, so no rendered text is
produced). -/
theorem missing_placeholder_fails_fast (t : String) (fx : Fixture)
    (h : ∃ k ∈ placeholders t, fx k = none) :
    ∃ n, render t fx = Except.error (RenderError.MissingPlaceholder n) :=
  renderToks_missing fx (templateToks t) h

/-- Witness for claim C6: a fixture without a `base` value on the string.c
template, whose `i64` parse function references `{base}`. -/
theorem missing_placeholder_witness :
    (∃ k ∈ placeholders string_c, fxNoBase k = none)
    ∧ ∃ n, render string_c fxNoBase = Except.error (RenderError.MissingPlaceholder n) :=
  ⟨⟨"base", by decide, rfl⟩,
   missing_placeholder_fails_fast string_c fxNoBase ⟨"base", by decide, rfl⟩⟩

set_option maxRecDepth 16384 in
/-- Counterexample to claim C7: the literal.c template does not reference
the `base` placeholder, so not every template in the corpus contains all
four placeholders. -/
theorem literal_template_lacks_base :
    ¬ ("base" ∈ placeholders literal_c) := by decide

set_option maxRecDepth 16384 in
/-- Claim C7 (amended): the two string templates reference all four
placeholders `type`, `value`, `expected`, `base`; the two literal templates
reference `type`, `value`, `expected` but not `base`.  The full placeholder
inventory of each template, in scan order, is listed. -/
theorem template_placeholder_inventory :
    placeholders literal_c = ["type", "value", "type", "expected"]
    ∧ placeholders literal_cpp = ["type", "value", "type", "expected"]
    ∧ placeholders string_c =
        ["base", "base", "type", "type", "value", "type", "expected",
         "type", "type", "type", "type", "type", "type"]
    ∧ placeholders string_cpp =
        ["base", "base", "type", "type", "value", "type", "expected",
         "type", "type", "type", "type", "type", "type"]
    ∧ ("type" ∈ placeholders string_c ∧ "value" ∈ placeholders string_c
        ∧ "expected" ∈ placeholders string_c ∧ "base" ∈ placeholders string_c)
    ∧ ("type" ∈ placeholders string_cpp ∧ "value" ∈ placeholders string_cpp
        ∧ "expected" ∈ placeholders string_cpp ∧ "base" ∈ placeholders string_cpp)
    ∧ ("type" ∈ placeholders literal_c ∧ "value" ∈ placeholders literal_c
        ∧ "expected" ∈ placeholders literal_c ∧ "base" ∉ placeholders literal_c)
    ∧ ("type" ∈ placeholders literal_cpp ∧ "value" ∈ placeholders literal_cpp
        ∧ "expected" ∈ placeholders literal_cpp ∧ "base" ∉ placeholders literal_cpp) := by
  have h1 : placeholders literal_c = ["type", "value", "type", "expected"] := rfl
  have h2 : placeholders literal_cpp = ["type", "value", "type", "expected"] := rfl
  have h3 : placeholders string_c =
      ["base", "base", "type", "type", "value", "type", "expected",
       "type", "type", "type", "type", "type", "type"] := rfl
  have h4 : placeholders string_cpp =
      ["base", "base", "type", "type", "value", "type", "expected",
       "type", "type", "type", "type", "type", "type"] := rfl
  refine ⟨h1, h2, h3, h4, ?_, ?_, ?_, ?_⟩
  · simp only [h3]; decide
  · simp only [h4]; decide
  · simp only [h1]; decide
  · simp only [h2]; decide

/-- Claim C8: an out-of-range numeric string is never a `ParseError`: the
generated `i64`/`u64` check only `*end != 0`, never `errno`/`ERANGE`, so a
nonempty all-digit string (of any magnitude) never takes the error path;
concretely, 2^63 as a decimal string is clamped by `strtol` saturation to
`LONG_MAX` (and 2^64 by `strtoul` to `ULONG_MAX`) and the program proceeds
to the assertion with the clamped value. -/
theorem out_of_range_clamps_without_error :
    (∀ s : String, s ≠ "" → (∀ c ∈ s.data, c.isDigit = true) →
        i64 s 10 ≠ Except.error ParseErrorMsg ∧ u64 s 10 ≠ Except.error ParseErrorMsg)
    ∧ i64 "9223372036854775808" 10 = Except.ok LONG_MAX
    ∧ u64 "18446744073709551616" 10 = Except.ok ULONG_MAX
    ∧ stringMain Ty.i64 "9223372036854775808" (CVal.vi LONG_MAX) 10 = Outcome.pass
    ∧ stringMain Ty.u64 "18446744073709551616" (CVal.vu ULONG_MAX) 10 = Outcome.pass := by
  refine ⟨?_, rfl, rfl, rfl, rfl⟩
  intro s hne hdig
  obtain ⟨l⟩ := s
  have hl : l ≠ [] := fun h => hne (by rw [h])
  obtain ⟨m, hm⟩ := strtolCore_digits hl hdig
  constructor
  · simp [i64, strtol, hm]
  · simp [u64, strtoul, hm]

/-- Witness for claim C8 at a concrete all-digit string. -/
theorem out_of_range_witness :
    ("5" ≠ "" ∧ ∀ c ∈ "5".data, c.isDigit = true)
    ∧ i64 "5" 10 ≠ Except.error ParseErrorMsg :=
  ⟨⟨by decide, by decide⟩,
   (out_of_range_clamps_without_error.1 "5" (by decide) (by decide)).1⟩

/-- Claim C9: the empty string is accepted without a `ParseError`: the
conversions consume nothing, `end` points at the terminating NUL, and each
generated parse function returns 0 (or 0.0); the program then proceeds to
the assertion (passing when the expected value is 0). -/
theorem empty_string_parses_as_zero :
    (∀ b : Nat, i64 "" b = Except.ok 0)
    ∧ (∀ b : Nat, u64 "" b = Except.ok 0)
    ∧ f64 "" = Except.ok (F.num 0)
    ∧ (∀ b : Nat, stringMain Ty.i64 "" (CVal.vi 0) b = Outcome.pass) := by
  have hi : ∀ b : Nat, i64 "" b = Except.ok 0 := by
    intro b
    simp [i64, strtol, strtolCore_nil, LONG_MAX, LONG_MIN]
  refine ⟨hi, ?_, by rfl, ?_⟩
  · intro b
    simp [u64, strtoul, strtolCore_nil, ULONG_MAX]
  · intro b
    simp [stringMain, parseAs, hi b, Except.map]
    rfl

/-- Claim C10: the `f64` parse function of the string templates calls
`strtod` with no base argument, so for a fixture of type `f64` the parsed
value and the whole program outcome are independent of the `base` value:
two renderings differing only in the base have identical runtime parsing
behavior. -/
theorem f64_ignores_base (v : String) (e : CVal) (b1 b2 : Nat) :
    parseAs Ty.f64 v b1 = parseAs Ty.f64 v b2
    ∧ stringMain Ty.f64 v e b1 = stringMain Ty.f64 v e b2 :=
  ⟨rfl, rfl⟩
